import Mathlib

/-!
Shallow embedding of the SEWA village agent pipeline (src/server.js).

The stateful/network parts of the program are modelled by passing the
outcome of each external call explicitly:

* `AIEnv` packages the configuration and outcomes of the two classifier
  providers (`openai`, `genAI`) together with the behaviour of `JSON.parse`
  on the provider responses (a partial function `String → Option
  ClassificationResult`, since `JSON.parse` is a platform primitive).
* `OctoResult` is the outcome of a single `octokit` content request:
  either data (base64 content plus sha) or a thrown error carrying an
  HTTP status.
* File contents and binary payloads are byte lists (`List Nat`, each
  element `< 256`), matching the Node `Buffer` view of the data.
* `StoredData` is the outcome of reading and `JSON.parse`-ing one of the
  two JSON collection files (`data/news.json`, `data/gallery.json`):
  absent (404), present but failing to parse, or parsed to a list of
  records together with the sha of the file.
* Effectful generators (`uuidv4()`, `Date.now()`,
  `toLocaleDateString("hi-IN")`) are hoisted to explicit parameters.

Handlers (`bot.on` for text, photo and document) are embedded as functions
from their inputs and environment to an `Actions` record listing, in
program order, the replies sent, the classifier calls made, the store
paths read, and the store writes performed.
-/

/-- The JSON record shape requested from the classifier (the fields of the
JSON template of the prompt) and produced by the fallback in `analyzeContent`. -/
structure ClassificationResult where
  category : String
  title_hindi : String
  title_english : String
  description_hindi : String
  description_english : String
  suggested_section : String
  priority : String
  tags : List String
  deriving DecidableEq

/-- The deterministic default record returned by the `catch` block of
`analyzeContent` (src/server.js lines 131-141). `String.take 50` embeds
`text.slice(0, 50)`. -/
def defaultAnalysis (text : String) (hasImage : Bool) : ClassificationResult :=
  { category := if hasImage then "gallery" else "news"
  , title_hindi := text.take 50
  , title_english := text.take 50
  , description_hindi := text
  , description_english := text
  , suggested_section := "general"
  , priority := "medium"
  , tags := [] }

/-- Environment of `analyzeContent`: whether each provider client was
constructed (its API key present), the outcome of each provider call
(`Except Unit String`: the response text, or a thrown error), and the
behaviour of `JSON.parse` on strings (`none` models a parse exception). -/
structure AIEnv where
  openaiConfigured : Bool
  openaiCall : Except Unit String
  geminiConfigured : Bool
  geminiCall : Except Unit String
  parse : String → Option ClassificationResult

/-- The regex match `text.match(/\x7b[\s\S]*\x7d/)` (src/server.js line 122):
the greedy pattern matches from the first opening brace to the last closing
brace, provided the last closing brace lies after the first opening brace. -/
def extractJsonMatch (s : String) : Option String :=
  let cs := s.toList
  match cs.findIdx? (· == '\x7b'), (cs.reverse.findIdx? (· == '\x7d')).map (fun j => cs.length - 1 - j) with
  | some i, some j => if i < j then some (String.mk ((cs.drop i).take (j - i + 1))) else none
  | _, _ => none

/-- The `try` block of `analyzeContent` (src/server.js lines 105-128):
if the OpenAI client exists, call it and `JSON.parse` its message content
(any throw escapes to the `catch`); otherwise, if the Gemini client exists,
call it, extract the first brace-delimited substring and parse it; reaching
the end throws `No AI service available`. -/
def analyzeTry (env : AIEnv) : Except Unit ClassificationResult :=
  if env.openaiConfigured then
    match env.openaiCall with
    | .error e => .error e
    | .ok content =>
      match env.parse content with
      | some r => .ok r
      | none => .error ()
  else if env.geminiConfigured then
    match env.geminiCall with
    | .error e => .error e
    | .ok text =>
      match extractJsonMatch text with
      | some sub =>
        match env.parse sub with
        | some r => .ok r
        | none => .error ()
      | none => .error ()
  else .error ()

/-- `analyzeContent(text, hasImage)` (src/server.js lines 76-143): the body
wrapped in try/catch, the catch returning the deterministic default. -/
def analyzeContent (env : AIEnv) (text : String) (hasImage : Bool) : ClassificationResult :=
  match analyzeTry env with
  | .ok r => r
  | .error _ => defaultAnalysis text hasImage

/-- Outcome of the primary (OpenAI) attempt alone: the parsed result, or
`none` when the call or the parse fails. -/
def openaiResult (env : AIEnv) : Option ClassificationResult :=
  match env.openaiCall with
  | .error _ => none
  | .ok c => env.parse c

/-- Outcome of the secondary (Gemini) attempt alone: the parsed extracted
substring, or `none` when the call, the extraction or the parse fails. -/
def geminiResult (env : AIEnv) : Option ClassificationResult :=
  match env.geminiCall with
  | .error _ => none
  | .ok t =>
    match extractJsonMatch t with
    | some sub => env.parse sub
    | none => none

/-- The base64 alphabet, in value order. -/
def b64chars : List Char :=
  "ABCDEFGHIJKLMNOPQRSTUVWXYZabcdefghijklmnopqrstuvwxyz0123456789+/".toList

/-- The base64 character for a 6-bit value. -/
def encChar (n : Nat) : Char := b64chars.getD n 'A'

/-- The 6-bit value of a base64 character. -/
def decChar (c : Char) : Nat := b64chars.indexOf c

/-- `Buffer.prototype.toString("base64")`: standard base64 of a byte list,
three bytes to four characters, with `=` padding on a short final group. -/
def b64encode : List Nat → List Char
  | [] => []
  | [a] => [encChar (a / 4), encChar (a % 4 * 16), '=', '=']
  | [a, b] => [encChar (a / 4), encChar (a % 4 * 16 + b / 16), encChar (b % 16 * 4), '=']
  | a :: b :: c :: rest =>
    encChar (a / 4) :: encChar (a % 4 * 16 + b / 16) ::
      encChar (b % 16 * 4 + c / 64) :: encChar (c % 64) :: b64encode rest

/-- `Buffer.from(s, "base64")` on well-formed base64: four characters to
three bytes, with `=` padding cutting the final group short. -/
def b64decode : List Char → List Nat
  | c1 :: c2 :: c3 :: c4 :: rest =>
    if c3 = '=' then [decChar c1 * 4 + decChar c2 / 16]
    else if c4 = '=' then
      [decChar c1 * 4 + decChar c2 / 16, decChar c2 % 16 * 16 + decChar c3 / 4]
    else
      (decChar c1 * 4 + decChar c2 / 16) :: (decChar c2 % 16 * 16 + decChar c3 / 4) ::
        (decChar c3 % 4 * 64 + decChar c4) :: b64decode rest
  | _ => []

/-- Outcome of one `octokit.rest.repos.getContent` call: response data
(base64 content and sha), or a thrown error carrying an HTTP status. -/
inductive OctoResult where
  | ok (content : List Char) (sha : String)
  | err (status : Nat)

/-- `getFileFromGitHub(path)` (src/server.js lines 150-167), as a function
of the outcome of the remote call: decode the base64 content and return it with
the sha; a thrown 404 becomes `(null, null)`; any other error re-throws. -/
def getFileFromGitHub (resp : OctoResult) : Except Nat (Option (List Nat) × Option String) :=
  match resp with
  | .ok content sha => .ok (some (b64decode content), some sha)
  | .err status => if status = 404 then .ok (none, none) else .error status

/-- The request object built by `updateFileOnGitHub` (src/server.js lines
172-188); `sha = none` means no `sha` key was put on the request. -/
structure UpdateParams where
  owner : String
  repo : String
  path : String
  message : String
  content : List Char
  branch : String
  sha : Option String
  deriving DecidableEq

/-- `updateFileOnGitHub(path, content, message, sha = null)` (src/server.js
lines 172-188): base64-encode the content and attach `sha` only when the
argument is truthy (absent, `null` and the empty string all leave it off).
Owner, repo and branch are the config defaults of src/server.js lines 28-33. -/
def updateFileOnGitHub (path : String) (content : List Nat) (message : String)
    (sha : Option String) : UpdateParams :=
  { owner := "KUL236"
  , repo := "sewa-digital-ganv"
  , path := path
  , message := message
  , content := b64encode content
  , branch := "main"
  , sha := match sha with
           | some s => if s = "" then none else some s
           | none => none }

/-- One element of the `data/news.json` array, as pushed by
`newsData.unshift(...)` (src/server.js lines 242-254). -/
structure NewsItem where
  id : String
  date : String
  timestamp : Nat
  title_hindi : String
  title_english : String
  description_hindi : String
  description_english : String
  image : Option String
  category : String
  priority : String
  tags : List String
  deriving DecidableEq

/-- One element of the `data/gallery.json` array, as pushed by
`galleryData.unshift(...)` (src/server.js lines 287-296). -/
structure GalleryItem where
  id : String
  path : String
  title_hindi : String
  title_english : String
  category : String
  tags : List String
  timestamp : Nat
  date : String
  deriving DecidableEq

/-- Outcome of reading one of the JSON collection files and `JSON.parse`-ing
it: the file is absent (`content` was null), present but failing to parse,
or parsed to a record list; the sha accompanies any present file. -/
inductive StoredData (α : Type) where
  | missing
  | malformed (sha : String)
  | parsed (items : List α) (sha : String)
  deriving DecidableEq

/-- The record list the update functions start from (src/server.js lines
232-239 and 276-283): `[]` when the file is absent, `[]` again when
`JSON.parse` throws, the parsed array otherwise. -/
def StoredData.items {α : Type} : StoredData α → List α
  | .missing => []
  | .malformed _ => []
  | .parsed l _ => l

/-- The sha forwarded to the write: `null` for an absent file. -/
def StoredData.shaToken {α : Type} : StoredData α → Option String
  | .missing => none
  | .malformed s => some s
  | .parsed _ s => some s

/-- The record `newsData.unshift(...)` builds (src/server.js lines 242-254).
`newsId`, `date` and `timestamp` are the hoisted effects `uuidv4().slice(0,8)`,
`toLocaleDateString("hi-IN")` and `Date.now()`. -/
def buildNewsItem (newsId date : String) (timestamp : Nat)
    (analysis : ClassificationResult) (imagePath : Option String) : NewsItem :=
  { id := newsId
  , date := date
  , timestamp := timestamp
  , title_hindi := analysis.title_hindi
  , title_english := analysis.title_english
  , description_hindi := analysis.description_hindi
  , description_english := analysis.description_english
  , image := imagePath
  , category := analysis.category
  , priority := analysis.priority
  , tags := analysis.tags }

/-- The array committed by `addNewsToWebsite(analysis, imagePath)`
(src/server.js lines 212-268): unshift the new record onto the stored
array, then `slice(0, 50)`. `uuid` is the hoisted `uuidv4()`; the function
applies the `slice(0, 8)` itself. -/
def addNewsToWebsite (stored : StoredData NewsItem) (analysis : ClassificationResult)
    (imagePath : Option String) (uuid date : String) (timestamp : Nat) : List NewsItem :=
  (buildNewsItem (uuid.take 8) date timestamp analysis imagePath :: stored.items).take 50

/-- The record `galleryData.unshift(...)` builds (src/server.js lines 287-296). -/
def buildGalleryItem (photoId imagePath : String) (analysis : ClassificationResult)
    (timestamp : Nat) (date : String) : GalleryItem :=
  { id := photoId
  , path := imagePath
  , title_hindi := analysis.title_hindi
  , title_english := analysis.title_english
  , category := analysis.category
  , tags := analysis.tags
  , timestamp := timestamp
  , date := date }

/-- The array committed by `addPhotoToGallery(imagePath, analysis)`
(src/server.js lines 273-306): unshift the new record onto the stored
array; no cap is applied. -/
def addPhotoToGallery (stored : StoredData GalleryItem) (imagePath : String)
    (analysis : ClassificationResult) (uuid : String) (timestamp : Nat)
    (date : String) : List GalleryItem :=
  buildGalleryItem (uuid.take 8) imagePath analysis timestamp date :: stored.items

/-- `isAdmin(ctx)` (src/server.js lines 311-318): an empty allow-list admits
everyone; otherwise membership of `ctx.from?.id` (which `includes` answers
false for when `ctx.from` is absent). -/
def isAdmin (adminIds : List Int) (userId : Option Int) : Bool :=
  if adminIds.length = 0 then true
  else
    match userId with
    | some u => adminIds.contains u
    | none => false

/-- JavaScript `a || b` on an optional string: the default replaces both an
absent value and the empty string. -/
def jsOrString (o : Option String) (dflt : String) : String :=
  match o with
  | some s => if s = "" then dflt else s
  | none => dflt

/-- The decimal digit character for `d < 10`. -/
def digitChar (d : Nat) : Char := Char.ofNat (48 + d)

/-- Decimal rendering of a number, as JavaScript template interpolation of
`Date.now()` renders it. -/
def natDecimal (n : Nat) : List Char :=
  if _h : n < 10 then [digitChar n]
  else natDecimal (n / 10) ++ [digitChar (n % 10)]
termination_by n
decreasing_by omega

/-- The generated photo filename (src/server.js line 456):
`Date.now()` in decimal, an underscore, the first eight characters of a
fresh uuid, and the `.jpg` suffix. -/
def mkPhotoFilename (now : Nat) (uuid : String) : String :=
  String.mk (natDecimal now) ++ "_" ++ uuid.take 8 ++ ".jpg"

/-- A lowercase hexadecimal digit. -/
def isHexChar (c : Char) : Bool := c.isDigit || ('a' ≤ c && c ≤ 'f')

/-- Decidable check of the path pattern `images/<digits>_<8-hex>.jpg`:
the literal prefix, a nonempty run of decimal digits, an underscore,
exactly eight hexadecimal characters, and the literal suffix. -/
def matchesImagePattern (s : String) : Bool :=
  let cs := s.toList
  let rest := cs.drop 7
  let ds := rest.takeWhile Char.isDigit
  let r1 := rest.drop ds.length
  let r2 := r1.drop 1
  decide (cs.take 7 = "images/".toList) && !ds.isEmpty &&
    decide (r1.take 1 = ['_']) &&
    decide ((r2.take 8).length = 8) && (r2.take 8).all isHexChar &&
    decide (r2.drop 8 = ".jpg".toList)

/-- The distinct replies a handler can send (identified, not quoted). -/
inductive ReplyTag where
  | unauthorized
  | processingText
  | successText
  | processingPhoto
  | successPhoto
  | processingDoc
  | successDoc
  | errorReply
  deriving DecidableEq

/-- What a store write carries: a serialized news array, a serialized
gallery array, or a raw binary blob. -/
inductive WritePayload where
  | news (items : List NewsItem)
  | gallery (items : List GalleryItem)
  | blob (bytes : List Nat)
  deriving DecidableEq

/-- One `updateFileOnGitHub` call made by a handler: target path, payload,
and the sha precondition passed (none for a create / unconditional write). -/
structure StoreWrite where
  path : String
  payload : WritePayload
  sha : Option String
  deriving DecidableEq

/-- Everything observable a handler did, each list in program order. -/
structure Actions where
  replies : List ReplyTag
  classifyCalls : List (String × Bool)
  storeReads : List String
  storeWrites : List StoreWrite
  deriving DecidableEq

/-- The `Actions` record of a handler that did nothing. -/
def Actions.none : Actions :=
  { replies := [], classifyCalls := [], storeReads := [], storeWrites := [] }

/-- The guard `text.startsWith("/")` (src/server.js line 407): whether the
first character is a slash. -/
def startsWithSlash (s : String) : Bool := decide (s.toList.take 1 = ['/'])

/-- Inputs and environment of one text-handler invocation. -/
structure TextEnv where
  adminIds : List Int
  userId : Option Int
  text : String
  ai : AIEnv
  newsRead : Except Nat (StoredData NewsItem)
  uuid : String
  dateStr : String
  ts : Nat

/-- The text handler `bot.on` (src/server.js lines 399-432): reject
non-admins with the authorization reply; silently return on a leading
slash; otherwise reply, classify, read-modify-write `data/news.json`
inside try/catch (a store read error reaches the catch and yields the
error reply), and acknowledge. -/
def textHandler (env : TextEnv) : Actions :=
  if isAdmin env.adminIds env.userId = false then
    { replies := [.unauthorized], classifyCalls := [], storeReads := [], storeWrites := [] }
  else if startsWithSlash env.text then Actions.none
  else
    let analysis := analyzeContent env.ai env.text false
    match env.newsRead with
    | .error _ =>
      { replies := [.processingText, .errorReply]
      , classifyCalls := [(env.text, false)]
      , storeReads := ["data/news.json"]
      , storeWrites := [] }
    | .ok stored =>
      { replies := [.processingText, .successText]
      , classifyCalls := [(env.text, false)]
      , storeReads := ["data/news.json"]
      , storeWrites :=
          [{ path := "data/news.json"
           , payload := .news (addNewsToWebsite stored analysis Option.none env.uuid env.dateStr env.ts)
           , sha := stored.shaToken }] }

/-- Inputs and environment of one photo-handler invocation. The
downloaded buffer and the `sharp` output are opaque byte lists; both
collection reads are supplied, the handler consulting only one of them. -/
structure PhotoEnv where
  adminIds : List Int
  userId : Option Int
  caption : Option String
  ai : AIEnv
  now : Nat
  uuid : String
  recordUuid : String
  dateStr : String
  ts : Nat
  optimized : List Nat
  galleryRead : Except Nat (StoredData GalleryItem)
  newsRead : Except Nat (StoredData NewsItem)

/-- The photo handler `bot.on` (src/server.js lines 435-482): authorization
check; caption defaulting via `||`; classify with `hasImage = true`;
generated filename; `uploadImageToGitHub` writes the optimized blob at
`images/<filename>` with no sha; then route on the classified category:
`gallery`/`heritage` append to `data/gallery.json`, anything else to
`data/news.json` with the image path on the record. A collection read
error reaches the catch after the blob write. -/
def photoHandler (env : PhotoEnv) : Actions :=
  if isAdmin env.adminIds env.userId = false then
    { replies := [.unauthorized], classifyCalls := [], storeReads := [], storeWrites := [] }
  else
    let caption := jsOrString env.caption "Village Photo"
    let analysis := analyzeContent env.ai caption true
    let imagePath := "images/" ++ mkPhotoFilename env.now env.uuid
    let blobWrite : StoreWrite := { path := imagePath, payload := .blob env.optimized, sha := Option.none }
    if analysis.category = "gallery" || analysis.category = "heritage" then
      match env.galleryRead with
      | .error _ =>
        { replies := [.processingPhoto, .errorReply]
        , classifyCalls := [(caption, true)]
        , storeReads := ["data/gallery.json"]
        , storeWrites := [blobWrite] }
      | .ok stored =>
        { replies := [.processingPhoto, .successPhoto]
        , classifyCalls := [(caption, true)]
        , storeReads := ["data/gallery.json"]
        , storeWrites :=
            [blobWrite,
             { path := "data/gallery.json"
             , payload := .gallery (addPhotoToGallery stored imagePath analysis env.recordUuid env.ts env.dateStr)
             , sha := stored.shaToken }] }
    else
      match env.newsRead with
      | .error _ =>
        { replies := [.processingPhoto, .errorReply]
        , classifyCalls := [(caption, true)]
        , storeReads := ["data/news.json"]
        , storeWrites := [blobWrite] }
      | .ok stored =>
        { replies := [.processingPhoto, .successPhoto]
        , classifyCalls := [(caption, true)]
        , storeReads := ["data/news.json"]
        , storeWrites :=
            [blobWrite,
             { path := "data/news.json"
             , payload := .news (addNewsToWebsite stored analysis (some imagePath) env.recordUuid env.dateStr env.ts)
             , sha := stored.shaToken }] }

/-- Inputs and environment of one document-handler invocation. -/
structure DocEnv where
  adminIds : List Int
  userId : Option Int
  caption : Option String
  fileName : String
  docBytes : List Nat
  ai : AIEnv
  newsRead : Except Nat (StoredData NewsItem)
  uuid : String
  dateStr : String
  ts : Nat

/-- The document handler `bot.on` (src/server.js lines 485-522): authorization
check; the raw downloaded bytes are written unmodified at
`documents/<original filename>` with no sha; classification runs on the
caption or (absing via `||`) the filename with `hasImage = false`; the
category of the result is overwritten with `document`; a ContentRecord without
an image is appended to `data/news.json`. -/
def documentHandler (env : DocEnv) : Actions :=
  if isAdmin env.adminIds env.userId = false then
    { replies := [.unauthorized], classifyCalls := [], storeReads := [], storeWrites := [] }
  else
    let caption := jsOrString env.caption env.fileName
    let docPath := "documents/" ++ env.fileName
    let blobWrite : StoreWrite := { path := docPath, payload := .blob env.docBytes, sha := Option.none }
    let analysis := analyzeContent env.ai caption false
    let forced := { analysis with category := "document" }
    match env.newsRead with
    | .error _ =>
      { replies := [.processingDoc, .errorReply]
      , classifyCalls := [(caption, false)]
      , storeReads := ["data/news.json"]
      , storeWrites := [blobWrite] }
    | .ok stored =>
      { replies := [.processingDoc, .successDoc]
      , classifyCalls := [(caption, false)]
      , storeReads := ["data/news.json"]
      , storeWrites :=
          [blobWrite,
           { path := "data/news.json"
           , payload := .news (addNewsToWebsite stored forced Option.none env.uuid env.dateStr env.ts)
           , sha := stored.shaToken }] }

/-- Decoding a base64 character of the alphabet recovers its 6-bit value. -/
theorem decChar_encChar : ∀ n, n < 64 → decChar (encChar n) = n := by decide

/-- Alphabet characters are never the padding character. -/
theorem encChar_ne_pad : ∀ n, n < 64 → encChar n ≠ '=' := by decide

/-- Base64 decoding inverts base64 encoding on byte lists. -/
theorem b64decode_b64encode (l : List Nat) (h : ∀ b ∈ l, b < 256) :
    b64decode (b64encode l) = l := by
  match l with
  | [] => rfl
  | [a] =>
    have ha : a < 256 := h a (by simp)
    simp only [b64encode, b64decode, if_pos]
    rw [decChar_encChar _ (by omega), decChar_encChar _ (by omega)]
    simp only [List.cons.injEq, and_true]
    omega
  | [a, b] =>
    have ha : a < 256 := h a (by simp)
    have hb : b < 256 := h b (by simp)
    simp only [b64encode, b64decode]
    rw [if_neg (encChar_ne_pad _ (by omega)), if_pos trivial]
    rw [decChar_encChar _ (by omega), decChar_encChar _ (by omega),
        decChar_encChar _ (by omega)]
    simp only [List.cons.injEq, and_true]
    constructor <;> omega
  | a :: b :: c :: rest =>
    have ha : a < 256 := h a (by simp)
    have hb : b < 256 := h b (by simp)
    have hc : c < 256 := h c (by simp)
    have ih : b64decode (b64encode rest) = rest :=
      b64decode_b64encode rest (fun x hx => h x (by simp [hx]))
    simp only [b64encode, b64decode]
    rw [if_neg (encChar_ne_pad _ (by omega)), if_neg (encChar_ne_pad _ (by omega))]
    rw [decChar_encChar _ (by omega), decChar_encChar _ (by omega),
        decChar_encChar _ (by omega), decChar_encChar _ (by omega), ih]
    simp only [List.cons.injEq, and_true]
    refine ⟨by omega, by omega, by omega⟩

/-- The digit character of a digit is a digit character. -/
theorem digitChar_isDigit (d : Nat) (h : d < 10) : (digitChar d).isDigit = true := by
  interval_cases d <;> decide

/-- A decimal rendering is never empty. -/
theorem natDecimal_ne_nil (n : Nat) : natDecimal n ≠ [] := by
  unfold natDecimal
  split
  · simp
  · simp

/-- Every character of a decimal rendering is a digit. -/
theorem natDecimal_digits (n : Nat) : ∀ c ∈ natDecimal n, c.isDigit = true := by
  unfold natDecimal
  split
  · next h =>
    intro c hc
    simp only [List.mem_singleton] at hc
    subst hc
    exact digitChar_isDigit n h
  · next h =>
    intro c hc
    rw [List.mem_append] at hc
    rcases hc with hc | hc
    · exact natDecimal_digits (n / 10) c hc
    · simp only [List.mem_singleton] at hc
      subst hc
      exact digitChar_isDigit (n % 10) (Nat.mod_lt n (by omega))
termination_by n
decreasing_by omega

/-- `takeWhile` passes over a prefix whose elements all satisfy the
predicate. -/
theorem takeWhile_append_all {p : Char → Bool} (l1 l2 : List Char)
    (h : ∀ c ∈ l1, p c = true) :
    (l1 ++ l2).takeWhile p = l1 ++ l2.takeWhile p := by
  induction l1 with
  | nil => simp
  | cons x xs ih =>
    simp only [List.cons_append, List.takeWhile_cons, h x (by simp)]
    rw [ih (fun c hc => h c (by simp [hc]))]
    simp

/-- The pattern checker accepts `images/` followed by a nonempty digit run,
an underscore, eight hexadecimal characters and `.jpg`. -/
theorem matchesImagePattern_parts (nd hx : List Char)
    (hnd1 : nd ≠ []) (hnd2 : ∀ c ∈ nd, c.isDigit = true)
    (hx1 : hx.length = 8) (hx2 : ∀ c ∈ hx, isHexChar c = true) :
    matchesImagePattern (String.mk ("images/".toList ++ (nd ++ '_' :: (hx ++ ".jpg".toList)))) = true := by
  have h7 : (['i', 'm', 'a', 'g', 'e', 's', '/'] : List Char).length = 7 := by decide
  have hUnd : List.takeWhile Char.isDigit ('_' :: (hx ++ ['.', 'j', 'p', 'g'])) = ([] : List Char) := by
    simp [List.takeWhile_cons]
  have htw : List.takeWhile Char.isDigit (nd ++ '_' :: (hx ++ ['.', 'j', 'p', 'g'])) = nd := by
    rw [takeWhile_append_all nd ('_' :: (hx ++ ['.', 'j', 'p', 'g'])) hnd2, hUnd, List.append_nil]
  unfold matchesImagePattern
  simp only [String.toList]
  simp only [List.take_left' h7, List.drop_left' h7, htw, List.drop_left,
    List.take_succ_cons, List.take_zero, List.drop_succ_cons,
    List.take_left' hx1, List.drop_left' hx1]
  simp [hnd1, List.all_eq_true, hx1]
  exact hx2

/-- The generated blob path `images/` ++ `mkPhotoFilename` matches the
pattern whenever the first eight uuid characters are eight hex digits. -/
theorem mkPhotoFilename_matches (now : Nat) (uuid : String)
    (hlen : (uuid.take 8).toList.length = 8)
    (hhex : ∀ c ∈ (uuid.take 8).toList, isHexChar c = true) :
    matchesImagePattern ("images/" ++ mkPhotoFilename now uuid) = true := by
  have hs : "images/" ++ mkPhotoFilename now uuid
      = String.mk ("images/".toList ++ (natDecimal now ++ '_' :: ((uuid.take 8).toList ++ ".jpg".toList))) := by
    apply String.ext
    simp [mkPhotoFilename, String.data_append, String.toList]
  rw [hs]
  exact matchesImagePattern_parts (natDecimal now) (uuid.take 8).toList
    (natDecimal_ne_nil now) (natDecimal_digits now) hlen hhex

/-- A concrete classification record used by witness environments. -/
def analysis0 : ClassificationResult :=
  { category := "news"
  , title_hindi := "शीर्षक"
  , title_english := "Title"
  , description_hindi := "विवरण"
  , description_english := "Description"
  , suggested_section := "general"
  , priority := "medium"
  , tags := ["a"] }

/-- A concrete record classified as heritage. -/
def heritage0 : ClassificationResult := { analysis0 with category := "heritage" }

/-- A concrete record classified as event. -/
def event0 : ClassificationResult := { analysis0 with category := "event" }

/-- A concrete stored news record. -/
def item0 : NewsItem := buildNewsItem "id0" "1/1/2025" 0 analysis0 Option.none

/-- Classifier environment in which both providers are unconfigured. -/
def failEnv : AIEnv :=
  { openaiConfigured := false
  , openaiCall := .error ()
  , geminiConfigured := false
  , geminiCall := .error ()
  , parse := fun _ => Option.none }

/-- Classifier environment in which the configured primary call throws
while the secondary is configured, answers a brace-delimited payload, and
would parse successfully. -/
def cexEnv : AIEnv :=
  { openaiConfigured := true
  , openaiCall := .error ()
  , geminiConfigured := true
  , geminiCall := .ok "\x7ba\x7d"
  , parse := fun _ => some event0 }

/-- Classifier environment in which the configured primary succeeds. -/
def okEnv : AIEnv :=
  { openaiConfigured := true
  , openaiCall := .ok "resp"
  , geminiConfigured := false
  , geminiCall := .error ()
  , parse := fun _ => some heritage0 }

/-- A news collection already at the 50-element cap. -/
def stored50 : StoredData NewsItem := .parsed (List.replicate 50 item0) "sha50"

/-- A concrete photo-handler environment classifying as heritage. -/
def pEnv : PhotoEnv :=
  { adminIds := []
  , userId := Option.none
  , caption := some "मंदिर"
  , ai := okEnv
  , now := 1733
  , uuid := "0a1b2c3d-ff"
  , recordUuid := "feedcafe-11"
  , dateStr := "1/1/2025"
  , ts := 7
  , optimized := [255, 0]
  , galleryRead := .ok (.parsed [] "gsha")
  , newsRead := .ok .missing }

/-- A concrete document-handler environment with no caption. -/
def dEnv : DocEnv :=
  { adminIds := [42]
  , userId := some 42
  , caption := Option.none
  , fileName := "notice.pdf"
  , docBytes := [37, 80, 68, 70]
  , ai := failEnv
  , newsRead := .ok (.parsed [item0] "nsha")
  , uuid := "abcd1234-0"
  , dateStr := "2/2/2025"
  , ts := 9 }

/-- A concrete text-handler environment for an unregistered command. -/
def tEnvCmd : TextEnv :=
  { adminIds := []
  , userId := Option.none
  , text := "/foo"
  , ai := failEnv
  , newsRead := .ok .missing
  , uuid := "u1"
  , dateStr := "d1"
  , ts := 0 }

/-- A concrete text-handler environment with a non-allow-listed sender. -/
def tEnvStranger : TextEnv :=
  { adminIds := [42]
  , userId := some 7
  , text := "hello"
  , ai := failEnv
  , newsRead := .ok .missing
  , uuid := "u2"
  , dateStr := "d2"
  , ts := 0 }

/-- Unshifting onto the stored array and capping is a cons followed by a
49-element truncation of the prior array. -/
theorem addNewsToWebsite_eq_cons (stored : StoredData NewsItem) (analysis : ClassificationResult)
    (imagePath : Option String) (uuid date : String) (ts : Nat) :
    addNewsToWebsite stored analysis imagePath uuid date ts =
      buildNewsItem (uuid.take 8) date ts analysis imagePath :: stored.items.take 49 := by
  unfold addNewsToWebsite
  rw [show (50 : Nat) = 49 + 1 from rfl, List.take_succ_cons]

/-- Case analysis of `analyzeContent` over the provider configuration:
the primary outcome (default on failure) when the primary is configured,
else the secondary outcome (default on failure) when the secondary is
configured, else the default. -/
theorem analyzeContent_cases (env : AIEnv) (text : String) (hasImage : Bool) :
    analyzeContent env text hasImage =
      (if env.openaiConfigured then (openaiResult env).getD (defaultAnalysis text hasImage)
       else if env.geminiConfigured then (geminiResult env).getD (defaultAnalysis text hasImage)
       else defaultAnalysis text hasImage) := by
  unfold analyzeContent analyzeTry openaiResult geminiResult
  by_cases ho : env.openaiConfigured = true
  · simp only [ho, if_true]
    cases hc : env.openaiCall with
    | error e => simp
    | ok c => cases hp : env.parse c <;> simp [hp]
  · rw [Bool.not_eq_true] at ho
    simp only [ho, Bool.false_eq_true, if_false]
    by_cases hg : env.geminiConfigured = true
    · simp only [hg, if_true]
      cases hc : env.geminiCall with
      | error e => simp
      | ok t =>
        cases he : extractJsonMatch t with
        | none => simp [he]
        | some sub => cases hp : env.parse sub <;> simp [he, hp]
    · rw [Bool.not_eq_true] at hg
      simp only [hg, Bool.false_eq_true, if_false]

/-- Claim C1 counterexample: with the primary provider configured and its
call throwing, and the secondary configured, answering a brace-delimited
payload that parses to a non-default record, `analyzeContent` still
returns the deterministic default — the secondary is never attempted. -/
theorem analyzeContent_skips_secondary_cex :
    cexEnv.openaiConfigured = true ∧
    cexEnv.openaiCall = .error () ∧
    cexEnv.geminiConfigured = true ∧
    geminiResult cexEnv = some event0 ∧
    event0 ≠ defaultAnalysis "hello" false ∧
    analyzeContent cexEnv "hello" false = defaultAnalysis "hello" false := by
  refine ⟨rfl, rfl, rfl, by rfl, by decide, by rfl⟩

/-- Claim C1 (amended): when the primary provider is configured the result
is the primary outcome or, on any failure of it, directly the
deterministic default — independent of the secondary provider; the
secondary is attempted only when the primary is not configured; with
neither configured the default is returned. -/
theorem analyzeContent_fallback_order (env : AIEnv) (text : String) (hasImage : Bool) :
    (env.openaiConfigured = true →
      analyzeContent env text hasImage = (openaiResult env).getD (defaultAnalysis text hasImage)) ∧
    (env.openaiConfigured = false → env.geminiConfigured = true →
      analyzeContent env text hasImage = (geminiResult env).getD (defaultAnalysis text hasImage)) ∧
    (env.openaiConfigured = false → env.geminiConfigured = false →
      analyzeContent env text hasImage = defaultAnalysis text hasImage) := by
  refine ⟨fun h1 => ?_, fun h1 h2 => ?_, fun h1 h2 => ?_⟩ <;>
    rw [analyzeContent_cases] <;> simp [h1]
  · simp [h2]
  · simp [h2]

/-- Witness for the amended C1 theorem: a configured, failing primary
yields the default even though the secondary would succeed. -/
theorem analyzeContent_fallback_order_witness :
    analyzeContent cexEnv "x" false = (openaiResult cexEnv).getD (defaultAnalysis "x" false) :=
  (analyzeContent_fallback_order cexEnv "x" false).1 rfl

/-- Claim C2: whenever each configured provider fails (call, extraction or
parse), `analyzeContent` returns — never throws — the deterministic
fallback: category decided solely by `hasImage` (`gallery` with an image,
`news` without), both titles the 50-character truncation of the text,
priority `medium`, no tags. -/
theorem classify_fallback_default (env : AIEnv) (text : String) (hasImage : Bool)
    (h1 : env.openaiConfigured = true → openaiResult env = Option.none)
    (h2 : env.geminiConfigured = true → geminiResult env = Option.none) :
    analyzeContent env text hasImage = defaultAnalysis text hasImage ∧
    (analyzeContent env text hasImage).category = (if hasImage then "gallery" else "news") ∧
    (analyzeContent env text hasImage).title_hindi = text.take 50 ∧
    (analyzeContent env text hasImage).title_english = text.take 50 ∧
    (analyzeContent env text hasImage).priority = "medium" ∧
    (analyzeContent env text hasImage).tags = [] := by
  have hmain : analyzeContent env text hasImage = defaultAnalysis text hasImage := by
    rw [analyzeContent_cases]
    by_cases ho : env.openaiConfigured = true
    · simp [ho, h1 ho]
    · rw [Bool.not_eq_true] at ho
      by_cases hg : env.geminiConfigured = true
      · simp [ho, hg, h2 hg]
      · rw [Bool.not_eq_true] at hg
        simp [ho, hg]
  refine ⟨hmain, ?_, ?_, ?_, ?_, ?_⟩ <;> simp [hmain, defaultAnalysis]

/-- Witness for C2 at the doubly-unconfigured environment. -/
theorem classify_fallback_default_witness :
    analyzeContent failEnv "कल बैठक होगी" false = defaultAnalysis "कल बैठक होगी" false ∧
    (analyzeContent failEnv "कल बैठक होगी" false).category = (if false then "gallery" else "news") ∧
    (analyzeContent failEnv "कल बैठक होगी" false).title_hindi = ("कल बैठक होगी" : String).take 50 ∧
    (analyzeContent failEnv "कल बैठक होगी" false).title_english = ("कल बैठक होगी" : String).take 50 ∧
    (analyzeContent failEnv "कल बैठक होगी" false).priority = "medium" ∧
    (analyzeContent failEnv "कल बैठक होगी" false).tags = [] :=
  classify_fallback_default failEnv "कल बैठक होगी" false (fun _ => rfl) (fun _ => rfl)

/-- Claim C3: `addNewsToWebsite` puts the new record at the head of the
collection, and when the prior collection held at least 50 records the
committed collection has exactly 50: the new record plus the 49 newest of
the prior records, the oldest discarded. -/
theorem addNews_head_and_cap (stored : StoredData NewsItem) (analysis : ClassificationResult)
    (imagePath : Option String) (uuid date : String) (ts : Nat) :
    (addNewsToWebsite stored analysis imagePath uuid date ts).head? =
      some (buildNewsItem (uuid.take 8) date ts analysis imagePath) ∧
    (50 ≤ stored.items.length →
      (addNewsToWebsite stored analysis imagePath uuid date ts).length = 50 ∧
      addNewsToWebsite stored analysis imagePath uuid date ts =
        buildNewsItem (uuid.take 8) date ts analysis imagePath :: stored.items.take 49) := by
  rw [addNewsToWebsite_eq_cons]
  refine ⟨rfl, fun h => ⟨?_, rfl⟩⟩
  simp [List.length_take]
  omega

/-- Witness for C3 at a collection already holding 50 records. -/
theorem addNews_head_and_cap_witness :
    50 ≤ stored50.items.length ∧
    (addNewsToWebsite stored50 analysis0 Option.none "uuid-xyz" "3/3/2025" 3).length = 50 ∧
    (addNewsToWebsite stored50 analysis0 Option.none "uuid-xyz" "3/3/2025" 3).head? =
      some (buildNewsItem (("uuid-xyz" : String).take 8) "3/3/2025" 3 analysis0 Option.none) :=
  ⟨by decide,
   ((addNews_head_and_cap stored50 analysis0 Option.none "uuid-xyz" "3/3/2025" 3).2 (by decide)).1,
   (addNews_head_and_cap stored50 analysis0 Option.none "uuid-xyz" "3/3/2025" 3).1⟩

/-- Claim C5: a 404 from the remote store is returned as `(null, null)`
rather than thrown; any other thrown status propagates; and a write with
no version token builds a request without a `sha` precondition. -/
theorem store_read_404_and_create (st : Nat) (path message : String) (content : List Nat)
    (hst : st ≠ 404) :
    getFileFromGitHub (.err 404) = .ok (Option.none, Option.none) ∧
    getFileFromGitHub (.err st) = .error st ∧
    (updateFileOnGitHub path content message Option.none).sha = Option.none := by
  refine ⟨rfl, ?_, rfl⟩
  unfold getFileFromGitHub
  simp [hst]

/-- Witness for C5 at status 500. -/
theorem store_read_404_and_create_witness :
    (500 : Nat) ≠ 404 ∧
    getFileFromGitHub (.err 500) = .error 500 ∧
    (updateFileOnGitHub "data/news.json" [1, 2] "msg" Option.none).sha = Option.none :=
  ⟨by decide,
   (store_read_404_and_create 500 "data/news.json" "msg" [1, 2] (by decide)).2.1,
   (store_read_404_and_create 500 "data/news.json" "msg" [1, 2] (by decide)).2.2⟩

/-- Claim C6: when the stored collection file fails to parse, both update
functions treat the collection as empty and commit a one-element
collection holding only the new record, instead of failing. -/
theorem malformed_collection_resets (sha1 sha2 : String) (analysis : ClassificationResult)
    (imagePath : Option String) (uuid1 uuid2 date ipath : String) (ts : Nat) :
    addNewsToWebsite (.malformed sha1) analysis imagePath uuid1 date ts =
      [buildNewsItem (uuid1.take 8) date ts analysis imagePath] ∧
    addPhotoToGallery (.malformed sha2) ipath analysis uuid2 ts date =
      [buildGalleryItem (uuid2.take 8) ipath analysis ts date] := by
  exact ⟨rfl, rfl⟩

/-- Claim C9: the base64 encoding done by the write and the base64 decoding
done by the read compose to the identity: reading back a written file
yields exactly the written bytes (and the committed sha). -/
theorem store_write_read_roundtrip (path message : String) (sha : Option String)
    (content : List Nat) (sha2 : String) (hcontent : ∀ b ∈ content, b < 256) :
    getFileFromGitHub (.ok (updateFileOnGitHub path content message sha).content sha2) =
      .ok (some content, some sha2) := by
  unfold getFileFromGitHub updateFileOnGitHub
  simp [b64decode_b64encode content hcontent]

/-- Witness for C9 on a concrete serialized payload. -/
theorem store_write_read_roundtrip_witness :
    (∀ b ∈ [91, 123, 34, 105, 100, 34, 93], b < 256) ∧
    getFileFromGitHub
        (.ok (updateFileOnGitHub "data/news.json" [91, 123, 34, 105, 100, 34, 93] "msg" Option.none).content "abc") =
      .ok (some [91, 123, 34, 105, 100, 34, 93], some "abc") :=
  ⟨by decide,
   store_write_read_roundtrip "data/news.json" "msg" Option.none
     [91, 123, 34, 105, 100, 34, 93] "abc" (by decide)⟩

/-- Claim C4: with a non-empty allow-list and a sender not on it, the text
handler only sends the authorization-rejection reply — no classifier call
and no store read or write happen; and an empty allow-list authorizes
every sender. -/
theorem text_unauthorized_no_effects (env : TextEnv) (ids2 : List Int) (uid2 : Option Int)
    (hne : env.adminIds ≠ [])
    (hnotin : ∀ u, env.userId = some u → u ∉ env.adminIds)
    (hempty : ids2 = []) :
    textHandler env =
      { replies := [.unauthorized], classifyCalls := [], storeReads := [], storeWrites := [] } ∧
    (textHandler env).classifyCalls = [] ∧
    (textHandler env).storeWrites = [] ∧
    isAdmin ids2 uid2 = true := by
  have hadmin : isAdmin env.adminIds env.userId = false := by
    unfold isAdmin
    rw [if_neg (by simp [hne])]
    cases hu : env.userId with
    | none => rfl
    | some u =>
      have hm : u ∉ env.adminIds := hnotin u hu
      simp [hm]
  have hh : textHandler env =
      { replies := [.unauthorized], classifyCalls := [], storeReads := [], storeWrites := [] } := by
    unfold textHandler
    rw [hadmin]
    simp
  refine ⟨hh, by rw [hh], by rw [hh], by rw [hempty]; rfl⟩

/-- Witness for C4: a sender with id 7 against allow-list `[42]` gets only
the rejection, and the empty allow-list admits an absent sender id. -/
theorem text_unauthorized_no_effects_witness :
    tEnvStranger.adminIds ≠ [] ∧
    textHandler tEnvStranger =
      { replies := [.unauthorized], classifyCalls := [], storeReads := [], storeWrites := [] } ∧
    isAdmin [] Option.none = true :=
  ⟨by decide,
   (text_unauthorized_no_effects tEnvStranger [] Option.none (by decide)
     (by intro u hu hmem; cases hu; revert hmem; decide) rfl).1,
   (text_unauthorized_no_effects tEnvStranger [] Option.none (by decide)
     (by intro u hu hmem; cases hu; revert hmem; decide) rfl).2.2.2⟩

/-- Claim C10: for an authorized sender, a text beginning with a slash
(reaching this handler, i.e. not intercepted as a registered command) is
silently dropped: no reply, no classifier call, no store read, no store
write. -/
theorem text_command_silently_dropped (env : TextEnv)
    (hadmin : isAdmin env.adminIds env.userId = true)
    (hcmd : startsWithSlash env.text = true) :
    textHandler env = Actions.none ∧
    (textHandler env).replies = [] ∧
    (textHandler env).classifyCalls = [] ∧
    (textHandler env).storeWrites = [] := by
  have hh : textHandler env = Actions.none := by
    unfold textHandler
    rw [hadmin]
    simp [hcmd]
  exact ⟨hh, by rw [hh]; rfl, by rw [hh]; rfl, by rw [hh]; rfl⟩

/-- Witness for C10 on the unregistered command `/foo` with an empty
allow-list. -/
theorem text_command_silently_dropped_witness :
    isAdmin tEnvCmd.adminIds tEnvCmd.userId = true ∧
    startsWithSlash tEnvCmd.text = true ∧
    textHandler tEnvCmd = Actions.none :=
  ⟨by decide, by decide,
   (text_command_silently_dropped tEnvCmd (by decide) (by decide)).1⟩

/-- Claim C7: for an authorized photo, when the classification category is
`gallery` or `heritage` the handler commits the uploaded blob and exactly
one new GalleryRecord at the head of the gallery collection (and nothing
to the news collection); for any other category it instead commits the
blob and one new ContentRecord carrying the media path at the head of the
news collection; in both cases the blob path matches
`images/<digits>_<8-hex>.jpg`. -/
theorem photo_routing (env : PhotoEnv)
    (hadmin : isAdmin env.adminIds env.userId = true)
    (hlen : (env.uuid.take 8).toList.length = 8)
    (hhex : ∀ c ∈ (env.uuid.take 8).toList, isHexChar c = true) :
    matchesImagePattern ("images/" ++ mkPhotoFilename env.now env.uuid) = true ∧
    (∀ st, env.galleryRead = .ok st →
      ((analyzeContent env.ai (jsOrString env.caption "Village Photo") true).category = "gallery" ∨
        (analyzeContent env.ai (jsOrString env.caption "Village Photo") true).category = "heritage") →
      (photoHandler env).storeWrites =
        [{ path := "images/" ++ mkPhotoFilename env.now env.uuid
         , payload := .blob env.optimized
         , sha := Option.none },
         { path := "data/gallery.json"
         , payload := .gallery (buildGalleryItem (env.recordUuid.take 8)
             ("images/" ++ mkPhotoFilename env.now env.uuid)
             (analyzeContent env.ai (jsOrString env.caption "Village Photo") true)
             env.ts env.dateStr :: st.items)
         , sha := st.shaToken }]) ∧
    (∀ st, env.newsRead = .ok st →
      (analyzeContent env.ai (jsOrString env.caption "Village Photo") true).category ≠ "gallery" →
      (analyzeContent env.ai (jsOrString env.caption "Village Photo") true).category ≠ "heritage" →
      (photoHandler env).storeWrites =
        [{ path := "images/" ++ mkPhotoFilename env.now env.uuid
         , payload := .blob env.optimized
         , sha := Option.none },
         { path := "data/news.json"
         , payload := .news (buildNewsItem (env.recordUuid.take 8) env.dateStr env.ts
             (analyzeContent env.ai (jsOrString env.caption "Village Photo") true)
             (some ("images/" ++ mkPhotoFilename env.now env.uuid)) :: st.items.take 49)
         , sha := st.shaToken }]) := by
  refine ⟨mkPhotoFilename_matches env.now env.uuid hlen hhex, ?_, ?_⟩
  · intro st hread hcat
    have hcond : ((analyzeContent env.ai (jsOrString env.caption "Village Photo") true).category = "gallery" ||
        (analyzeContent env.ai (jsOrString env.caption "Village Photo") true).category = "heritage") = true := by
      rcases hcat with h | h <;> simp [h]
    unfold photoHandler
    rw [hadmin]
    simp only [Bool.true_eq_false, if_false]
    rw [hcond, hread]
    simp [addPhotoToGallery]
  · intro st hread hcat1 hcat2
    have hcond : ((analyzeContent env.ai (jsOrString env.caption "Village Photo") true).category = "gallery" ||
        (analyzeContent env.ai (jsOrString env.caption "Village Photo") true).category = "heritage") = false := by
      simp [hcat1, hcat2]
    unfold photoHandler
    rw [hadmin]
    simp only [Bool.true_eq_false, if_false]
    rw [hcond, hread]
    simp [addNewsToWebsite_eq_cons]

/-- Witness for C7: an authorized photo captioned "मंदिर", classified
heritage by the configured provider, lands in the gallery collection with
its generated blob path. -/
theorem photo_routing_witness :
    isAdmin pEnv.adminIds pEnv.userId = true ∧
    matchesImagePattern ("images/" ++ mkPhotoFilename pEnv.now pEnv.uuid) = true ∧
    (photoHandler pEnv).storeWrites =
      [{ path := "images/1733_0a1b2c3d.jpg", payload := .blob [255, 0], sha := Option.none },
       { path := "data/gallery.json"
       , payload := .gallery [buildGalleryItem "feedcafe" "images/1733_0a1b2c3d.jpg" heritage0 7 "1/1/2025"]
       , sha := some "gsha" }] := by
  have hmk : mkPhotoFilename pEnv.now pEnv.uuid = "1733_0a1b2c3d.jpg" := by
    simp [mkPhotoFilename, natDecimal, digitChar, pEnv]
    decide
  refine ⟨by decide, (photo_routing pEnv (by decide) (by decide) (by decide)).1, ?_⟩
  rw [(photo_routing pEnv (by decide) (by decide) (by decide)).2.1
    (StoredData.parsed [] "gsha") rfl (Or.inr rfl), hmk]
  decide

/-- Claim C8: for an authorized document, the raw bytes are committed
unmodified at `documents/<original filename>` with no sha precondition,
the classifier runs on the caption or — absent one — the filename, the
category on the appended record is forced to `document`, and that record
(carrying no image) heads the news collection. -/
theorem document_pipeline (env : DocEnv)
    (hadmin : isAdmin env.adminIds env.userId = true) :
    ∀ st, env.newsRead = .ok st →
      (documentHandler env).classifyCalls = [(jsOrString env.caption env.fileName, false)] ∧
      (documentHandler env).storeWrites =
        [{ path := "documents/" ++ env.fileName, payload := .blob env.docBytes, sha := Option.none },
         { path := "data/news.json"
         , payload := .news (buildNewsItem (env.uuid.take 8) env.dateStr env.ts
             { analyzeContent env.ai (jsOrString env.caption env.fileName) false with category := "document" }
             Option.none :: st.items.take 49)
         , sha := st.shaToken }] ∧
      (buildNewsItem (env.uuid.take 8) env.dateStr env.ts
          { analyzeContent env.ai (jsOrString env.caption env.fileName) false with category := "document" }
          Option.none).category = "document" ∧
      (buildNewsItem (env.uuid.take 8) env.dateStr env.ts
          { analyzeContent env.ai (jsOrString env.caption env.fileName) false with category := "document" }
          Option.none).image = Option.none := by
  intro st hread
  unfold documentHandler
  rw [hadmin]
  simp only [Bool.true_eq_false, if_false]
  rw [hread]
  refine ⟨rfl, ?_, rfl, rfl⟩
  simp [addNewsToWebsite_eq_cons]

set_option maxRecDepth 8192 in
/-- Witness for C8: `notice.pdf` with no caption, classifier failing to the
default, lands at `documents/notice.pdf` and heads the news collection as
a `document` record without an image. -/
theorem document_pipeline_witness :
    isAdmin dEnv.adminIds dEnv.userId = true ∧
    (documentHandler dEnv).classifyCalls = [("notice.pdf", false)] ∧
    (documentHandler dEnv).storeWrites =
      [{ path := "documents/notice.pdf", payload := .blob [37, 80, 68, 70], sha := Option.none },
       { path := "data/news.json"
       , payload := .news [buildNewsItem "abcd1234" "2/2/2025" 9
           { defaultAnalysis "notice.pdf" false with category := "document" } Option.none, item0]
       , sha := some "nsha" }] := by
  refine ⟨by decide, ?_, ?_⟩
  · have h := (document_pipeline dEnv (by decide) (StoredData.parsed [item0] "nsha") rfl).1
    rw [h]
    decide
  · have h := (document_pipeline dEnv (by decide) (StoredData.parsed [item0] "nsha") rfl).2.1
    rw [h]
    decide
